import Mathlib

set_option autoImplicit false

/-!
Verification of the Orchestration Bus of the `agent_start` repository.

The development shallowly embeds the Python sources:

* `src/conversation_manager.py` — `Message`, the `Orchestrator` log
  (`record`, `new_message`, `run`) and the agents `Neo`, `Morpheus`,
  `Trinity` (namespace `ConvMgr` below).  ULIDs and wall-clock
  timestamps are modelled by a fresh natural-number counter carried in
  the orchestrator state: the source only relies on ids being unique
  and timestamps being non-decreasing, which the counter provides.
  The hard-wired failure of `Trinity.execute`
  (`task["task_id"] == "task-2" and attempt == 1`) is generalised into
  a parameter `fails : String → Nat → Bool` deciding, from the task id
  and the attempt number, whether the attempt's action raises; the
  source's own condition is `sourceFails`.
* `src/morpheus.py` — the FastAPI dispatch service: `NeoAgent`,
  `TrinityAgent` and the `Morpheus.handle_message` loop (namespace
  `Mor`).  The shell invocation performed by `TrinityAgent` is an
  opaque external action, passed in as `shellOut : String → String`.
* `src/task_queue.py` — the Redis list used as a FIFO queue
  (`lpush`/`rpop`), modelled as a Lean list (namespace `TQ`).
* `src/session_manager.py` — the Redis key/value store of session
  histories, modelled as an association list (namespace `SM`).
-/

namespace ConvMgr

/-- One task of a Morpheus plan: the dicts
`{"task_id": ..., "description": ...}` of `Morpheus.plan`. -/
structure PTask where
  task_id : String
  description : String
deriving DecidableEq

/-- The payload dict recorded for a succeeded attempt:
`{"task_id", "status", "output", "attempt"}` (`Trinity.execute`). -/
structure TaskRes where
  task_id : String
  status : String
  output : String
  attempt : Nat
deriving DecidableEq

/-- The payload dicts appearing in `conversation_manager.py`, one
constructor per shape built by the source. -/
inductive Payload where
  | intakeP (request : String)
  | planP (plan : List PTask) (original_request : String)
  | succeededP (r : TaskRes)
  | failedP (task_id : String) (status : String) (error : String) (attempt : Nat)
  | escalatedP (task_id : String) (status : String) (reason : String)
  | closeoutOk (results : List TaskRes) (status : String)
  | closeoutErr (error : String) (status : String)
deriving DecidableEq

/-- The `Message` dataclass.  `response_id` and `timestamp` are drawn
from the orchestrator's counter (see module docstring). -/
structure Message where
  response_id : Nat
  prev_response_id : Option Nat
  parent_id : Option Nat
  step_id : String
  agent : String
  timestamp : Nat
  payload : Payload
deriving DecidableEq

/-- Orchestrator state: the log (`self.log`, a Python dict keyed by
`response_id`, in insertion order) and the id/timestamp counter. -/
structure Orch where
  log : List Message
  nextId : Nat
deriving DecidableEq

/-- `Orchestrator.record`: `self.log[message.response_id] = message.to_dict()`.
Python dict assignment: if the key exists the stored value is replaced
in place (position kept), otherwise the pair is appended. -/
def record (log : List Message) (m : Message) : List Message :=
  if log.any (fun x => x.response_id == m.response_id) then
    log.map (fun x => if x.response_id == m.response_id then m else x)
  else
    log ++ [m]

/-- `Orchestrator.new_message`: build a `Message` with a fresh id and
timestamp, `record` it, and return it together with the new state. -/
def Orch.new_message (o : Orch) (agent step_id : String) (payload : Payload)
    (prev parent : Option Nat) : Message × Orch :=
  let msg : Message := ⟨o.nextId, prev, parent, step_id, agent, o.nextId, payload⟩
  (msg, ⟨record o.log msg, o.nextId + 1⟩)

/-- The inner `while True` loop of `Trinity.execute` for one task,
entered at attempt number `a` (the source enters it with `attempt = 1`
after the increment).  On a failed attempt a `failed` Message is
recorded; if `attempt >= 2` an `escalated` Message follows and the
`RuntimeError(f"Task {task_id} escalation required")` is raised
(modelled as `Except.error` carrying the exception text and the state);
otherwise the loop retries.  On success a `succeeded` Message is
recorded, with step label `step_id` on attempt 1 and
`step_id ++ ".retry"` afterwards. -/
def attemptLoop (fails : String → Nat → Bool) (step_id : String) (t : PTask)
    (plan_id : Nat) (a : Nat) (prev : Nat) (o : Orch) :
    Except (String × Orch) (TaskRes × Nat × Orch) :=
  if fails t.task_id a then
    let fm := o.new_message "Trinity" step_id
      (.failedP t.task_id "failed" "temporary failure" a) (some prev) (some plan_id)
    if h : a ≥ 2 then
      let em := fm.2.new_message "Trinity" (step_id ++ ".escalate")
        (.escalatedP t.task_id "escalated" "retries exhausted")
        (some fm.1.response_id) (some plan_id)
      .error ("Task " ++ t.task_id ++ " escalation required", em.2)
    else
      attemptLoop fails step_id t plan_id (a + 1) fm.1.response_id fm.2
  else
    let res : TaskRes := ⟨t.task_id, "succeeded", "completed " ++ t.description, a⟩
    let sm := o.new_message "Trinity"
      (if a == 1 then step_id else step_id ++ ".retry")
      (.succeededP res) (some prev) (some plan_id)
    .ok (res, sm.1.response_id, sm.2)
termination_by 2 - a
decreasing_by omega

/-- The outer `for index, task in enumerate(plan, 1)` loop of
`Trinity.execute`: runs the tasks in order, threading the previous
response id and accumulating the `results` list; an escalation aborts
the remaining tasks. -/
def execTasks (fails : String → Nat → Bool) (plan_id : Nat) :
    List PTask → Nat → Nat → List TaskRes → Orch →
    Except (String × Orch) (List TaskRes × Nat × Orch)
  | [], _, prev, results, o => .ok (results, prev, o)
  | t :: rest, index, prev, results, o =>
    match attemptLoop fails ("trinity.exec." ++ toString index) t plan_id 1 prev o with
    | .error e => .error e
    | .ok (res, prev2, o2) =>
        execTasks fails plan_id rest (index + 1) prev2 (results ++ [res]) o2

/-- The fixed two-task plan produced by `Morpheus.plan`. -/
def sourcePlan : List PTask :=
  [⟨"task-1", "Gather matrix intel"⟩, ⟨"task-2", "Secure extraction route"⟩]

/-- The source's hard-wired failure condition in `Trinity.execute`:
`task["task_id"] == "task-2" and attempt == 1`. -/
def sourceFails (task_id : String) (attempt : Nat) : Bool :=
  task_id == "task-2" && attempt == 1

/-- `Orchestrator.run`: intake Message, plan Message, `Trinity.execute`
on the plan; on success a closeout Message with payload
`{"results", "status": "complete"}` linked to the last task Message,
on `RuntimeError` (escalation) a closeout Message with payload
`{"error", "status": "failed"}` linked to the plan Message.  Returns
the final log. -/
def Orch.run (fails : String → Nat → Bool) (request : String) (o : Orch) :
    List Message :=
  let im := o.new_message "Neo" "neo.intake.1" (.intakeP request) none none
  let pm := im.2.new_message "Morpheus" "morpheus.plan.1"
    (.planP sourcePlan request) (some im.1.response_id) (some im.1.response_id)
  match execTasks fails pm.1.response_id sourcePlan 1 pm.1.response_id [] pm.2 with
  | .error (err, o3) =>
      (o3.new_message "Neo" "neo.closeout.1" (.closeoutErr err "failed")
        (some pm.1.response_id) (some pm.1.response_id)).2.log
  | .ok (results, last_id, o3) =>
      (o3.new_message "Neo" "neo.closeout.1" (.closeoutOk results "complete")
        (some last_id) (some last_id)).2.log

/-- A fresh orchestrator: `Orchestrator()` has an empty log, and the
id counter starts at 0. -/
def orch0 : Orch := ⟨[], 0⟩

/-- `Orchestrator().run(request)` exactly as in the source (with the
source's failure condition). -/
def run0 (request : String) : List Message := orch0.run sourceFails request

/-- A state is fresh when every recorded message has an id below the
counter; every state reachable from `orch0` satisfies this. -/
def Fresh (o : Orch) : Prop := ∀ m ∈ o.log, m.response_id < o.nextId

/-- The orchestrator state after the intake and plan Messages of a run
started from a fresh orchestrator: ids 0 and 1 are used, 2 is next. -/
def afterPlan (req : String) : Orch :=
  ⟨[⟨0, none, none, "neo.intake.1", "Neo", 0, .intakeP req⟩,
    ⟨1, some 0, some 0, "morpheus.plan.1", "Morpheus", 1, .planP sourcePlan req⟩], 2⟩

/-- `true` exactly on the failure closeout payloads
`{"error": ..., "status": "failed"}`. -/
def Payload.isErrCloseout : Payload → Bool
  | .closeoutErr _ _ => true
  | _ => false

end ConvMgr

namespace TQ

/-- `TaskQueue.push`: `lpush` prepends the entry at the head of the
Redis list (entries are JSON blobs in the source; they are modelled
generically). -/
def push {α : Type} (q : List α) (x : α) : List α := x :: q

/-- `TaskQueue.pop` with the default `timeout = 0`: `rpop` removes and
returns the tail element of the Redis list, or `None` when the list is
empty.  (With a non-zero timeout the source blocks in `brpop`; every
use in this repository calls `pop()` with the default.) -/
def pop {α : Type} (q : List α) : Option (α × List α) :=
  match q.reverse with
  | [] => none
  | x :: r => some (x, r.reverse)

/-- Repeatedly `pop` until the queue reports empty: the order in which
the queued entries are served.  `q.length` pops always suffice because
each successful `pop` shrinks the queue by one entry. -/
def drainFuel {α : Type} : Nat → List α → List α
  | 0, _ => []
  | fuel + 1, q =>
    match pop q with
    | none => []
    | some (x, r) => x :: drainFuel fuel r

/-- The serving order of a queue: drain it with enough fuel. -/
def drain {α : Type} (q : List α) : List α := drainFuel q.length q

end TQ

namespace SM

/-- The Redis key/value store behind `SessionManager`, keyed by
`"session:<id>"`: each key holds the JSON history list for one
session (absent key ⇒ `None`).  Entries are modelled generically. -/
def Store (α : Type) : Type := String → Option (List α)

/-- A Redis instance with no stored sessions. -/
def empty {α : Type} : Store α := fun _ => none

/-- `SessionManager.get`: `json.loads(data) if data else []` — the
stored history, or the empty list when the key is absent. -/
def get {α : Type} (st : Store α) (sid : String) : List α :=
  (st sid).getD []

/-- Redis `SET`: store the value at the key, overwriting. -/
def set {α : Type} (st : Store α) (sid : String) (v : List α) : Store α :=
  fun k => if k = sid then some v else st k

/-- `SessionManager.append`: read the history, append the entry, store
the result back. -/
def append {α : Type} (st : Store α) (sid : String) (m : α) : Store α :=
  set st sid (get st sid ++ [m])

end SM

namespace Mor

/-- The two exception kinds reachable in `morpheus.py`'s dispatch:
`IndexError` from `cmd.split()[0]` on an empty split, and `KeyError`
from `self.agents[name]` on an unregistered agent name. -/
inductive PyErr where
  | indexError
  | keyError
deriving DecidableEq

/-- The result dicts the agents return: `{"delegate": t, "command": c}`
(Neo's delegation), `{"response": text}` (Neo's direct answer), and
`{"status": s, "output": out}` (Trinity's execution result).  Only the
`delegate` dict makes `res.get("delegate")` truthy in the loop. -/
inductive ARes where
  | delegate (target : String) (command : String)
  | response (text : String)
  | exec (status : String) (output : String)
deriving DecidableEq

/-- A payload dict passed to `handle`: `{"text": ...}` from the chat
entry point, `{"command": ...}` from a delegation; the source reads
them with `payload.get(key, "")`, which is `getD ""` below. -/
structure MPayload where
  text : Option String := none
  command : Option String := none
deriving DecidableEq

/-- Model of Python `str.lower()` (character-wise case folding). -/
def pyLower (s : String) : String := String.mk (s.toList.map Char.toLower)

/-- Prefix test on character lists, for the substring model. -/
def isPrefixList : List Char → List Char → Bool
  | [], _ => true
  | _ :: _, [] => false
  | a :: as, b :: bs => a == b && isPrefixList as bs

/-- Model of Python `needle in hay`: some suffix of `hay` starts with
`needle`. -/
def containsSub : List Char → List Char → Bool
  | [], needle => isPrefixList needle []
  | c :: rest, needle => isPrefixList needle (c :: rest) || containsSub rest needle

/-- Python `needle in hay` on strings. -/
def strContains (hay needle : String) : Bool :=
  containsSub hay.toList needle.toList

/-- Model of Python `s.split()` with no separator: split on whitespace
runs, producing no empty pieces (`acc` holds the current word,
reversed). -/
def pySplitChars : List Char → List Char → List String
  | [], acc => if acc.isEmpty then [] else [String.mk acc.reverse]
  | c :: cs, acc =>
    if c.isWhitespace then
      if acc.isEmpty then pySplitChars cs []
      else String.mk acc.reverse :: pySplitChars cs []
    else pySplitChars cs (c :: acc)

/-- Python `cmd.split()`. -/
def pySplit (s : String) : List String := pySplitChars s.toList []

/-- `NeoAgent.handle`: delegate directory listings to Trinity, answer
directly otherwise.  The session argument is accepted and unused, as
in the source. -/
def neoHandle (payload : MPayload) (_session : List (String × ARes)) : ARes :=
  let text := payload.text.getD ""
  if strContains (pyLower text) "list" || strContains (pyLower text) "directory" then
    .delegate "Trinity" "ls"
  else
    .response "I only know how to list directories for now."

/-- `TrinityAgent.ALLOW`, the executor's allow-list. -/
def ALLOW : List String := ["ls"]

/-- `TrinityAgent.handle`: `base = cmd.split()[0]` raises `IndexError`
when the command is empty or whitespace-only; a base command outside
the allow-list returns the error result dict without touching the
shell; otherwise the full command line goes to
`subprocess.run(cmd, shell=True, ...)`, an opaque external action
modelled by `shellOut` (covering the `.stdout.strip()` as well). -/
def trinityHandle (shellOut : String → String) (payload : MPayload)
    (_session : List (String × ARes)) : Except PyErr ARes :=
  let cmd := payload.command.getD ""
  match pySplit cmd with
  | [] => .error .indexError
  | base :: _ =>
    if base ∈ ALLOW then .ok (.exec "success" (shellOut cmd))
    else .ok (.exec "error" "Command not allowed.")

/-- Agent capability: `handle(payload, session)`, possibly raising. -/
def AgentFn : Type := MPayload → List (String × ARes) → Except PyErr ARes

/-- The registry `{"Neo": NeoAgent(), "Trinity": TrinityAgent()}` of
`Morpheus.__init__`; `dispatchLoop` below is stated over an arbitrary
registry, matching the spec's agent registration interface. -/
def sourceAgents (shellOut : String → String) : String → Option AgentFn :=
  fun name =>
    if name = "Neo" then some (fun p s => .ok (neoHandle p s))
    else if name = "Trinity" then some (trinityHandle shellOut)
    else none

/-- One entry of the delegation queue:
`{"agent": ..., "session_id": ..., "payload": ...}`. -/
structure Entry where
  agent : String
  session_id : String
  payload : MPayload
deriving DecidableEq

/-- The `while True` dispatch loop of `Morpheus.handle_message`,
tail-iterative over the queue, with an explicit fuel bound (the source
loop has none; `none` marks fuel exhaustion and is never hit in the
claims below, which supply ample fuel).  Each iteration pops an entry,
resolves the agent (`KeyError` when unregistered), runs `handle`,
appends `{agent: result}` to the session history, and then — only when
the popped entry's agent is `"Neo"` and the result carries a
`delegate` key — pushes a new entry for the delegation target;
otherwise the result becomes the current dispatch outcome.  The loop
returns the last recorded outcome once the queue is empty.
(`res.get("delegate")` is modelled as matching the `delegate`
constructor; Python's truthiness would additionally treat a delegation
to the empty agent name as a final result, a case no agent of the
source produces.) -/
def dispatchLoop (agents : String → Option AgentFn) :
    Nat → List Entry → SM.Store (String × ARes) → Option ARes →
    Option (Except PyErr (Option ARes × SM.Store (String × ARes)))
  | 0, _, _, _ => none
  | fuel + 1, queue, sess, result =>
    match TQ.pop queue with
    | none => some (.ok (result, sess))
    | some (task, rest) =>
      match agents task.agent with
      | none => some (.error .keyError)
      | some f =>
        match f task.payload (SM.get sess task.session_id) with
        | .error e => some (.error e)
        | .ok res =>
          let sess2 := SM.append sess task.session_id (task.agent, res)
          if task.agent = "Neo" then
            match res with
            | .delegate tgt cmd =>
                dispatchLoop agents fuel
                  (TQ.push rest ⟨tgt, task.session_id, ⟨none, some cmd⟩⟩)
                  sess2 result
            | _ => dispatchLoop agents fuel rest sess2 (some res)
          else dispatchLoop agents fuel rest sess2 (some res)

/-- `Morpheus.handle_message`: push the initial Neo entry carrying the
chat text and run the dispatch loop on the instance's session store. -/
def handle_message (agents : String → Option AgentFn) (fuel : Nat)
    (sess : SM.Store (String × ARes)) (session_id message : String) :
    Option (Except PyErr (Option ARes × SM.Store (String × ARes))) :=
  dispatchLoop agents fuel
    (TQ.push [] ⟨"Neo", session_id, ⟨some message, none⟩⟩) sess none

/-- A registry exercising delegation from a non-"Neo" agent: Neo
delegates to Tank, Tank tries to delegate to Dozer, and Dozer would
answer if it were ever invoked. -/
def chainAgents : String → Option AgentFn :=
  fun name =>
    if name = "Neo" then some (fun _ _ => .ok (.delegate "Tank" "x"))
    else if name = "Tank" then some (fun _ _ => .ok (.delegate "Dozer" "y"))
    else if name = "Dozer" then some (fun _ _ => .ok (.response "dozer ran"))
    else none

end Mor

namespace ConvMgr

/-- When the new id is not yet in the log, `record` appends. -/
theorem record_append (log : List Message) (m : Message)
    (h : ∀ x ∈ log, x.response_id ≠ m.response_id) :
    record log m = log ++ [m] := by
  have hany : log.any (fun x => x.response_id == m.response_id) = false := by
    rw [List.any_eq_false]
    intro x hx
    simpa using h x hx
  simp [record, hany]

/-- On a fresh state, `new_message` appends the freshly built message
and bumps the counter. -/
theorem new_message_eq (o : Orch) (agent step_id : String) (p : Payload)
    (prev parent : Option Nat) (hf : Fresh o) :
    o.new_message agent step_id p prev parent =
      (⟨o.nextId, prev, parent, step_id, agent, o.nextId, p⟩,
       ⟨o.log ++ [⟨o.nextId, prev, parent, step_id, agent, o.nextId, p⟩],
        o.nextId + 1⟩) := by
  simp only [Orch.new_message]
  rw [record_append]
  intro x hx
  exact Nat.ne_of_lt (hf x hx)

/-- Appending a message carrying the current counter value keeps the
state fresh. -/
theorem fresh_snoc (o : Orch) (m : Message) (hf : Fresh o)
    (hm : m.response_id = o.nextId) :
    Fresh ⟨o.log ++ [m], o.nextId + 1⟩ := by
  intro x hx
  show x.response_id < o.nextId + 1
  rcases List.mem_append.1 hx with h | h
  · exact Nat.lt_succ_of_lt (hf x h)
  · rcases List.mem_singleton.1 h with rfl
    omega

/-- The fresh orchestrator state is fresh. -/
theorem fresh_orch0 : Fresh orch0 := by
  intro m hm
  exact absurd hm (List.not_mem_nil m)

/-- Retry loop, case "the action fails on attempts 1 and 2": two
`failed` Messages (both with the bare step label) and one `escalated`
Message are recorded, and the escalation `RuntimeError` is raised. -/
theorem attemptLoop_two_failures (fails : String → Nat → Bool) (s : String)
    (t : PTask) (plan_id prev : Nat) (o : Orch)
    (h1 : fails t.task_id 1 = true) (h2 : fails t.task_id 2 = true)
    (hf : Fresh o) :
    attemptLoop fails s t plan_id 1 prev o =
      .error ("Task " ++ t.task_id ++ " escalation required",
        ⟨o.log ++
          [⟨o.nextId, some prev, some plan_id, s, "Trinity", o.nextId,
            .failedP t.task_id "failed" "temporary failure" 1⟩,
           ⟨o.nextId + 1, some o.nextId, some plan_id, s, "Trinity", o.nextId + 1,
            .failedP t.task_id "failed" "temporary failure" 2⟩,
           ⟨o.nextId + 2, some (o.nextId + 1), some plan_id, s ++ ".escalate",
            "Trinity", o.nextId + 2,
            .escalatedP t.task_id "escalated" "retries exhausted"⟩],
         o.nextId + 3⟩) := by
  have e1 := new_message_eq o "Trinity" s
    (.failedP t.task_id "failed" "temporary failure" 1) (some prev) (some plan_id) hf
  have hf1 : Fresh ⟨o.log ++ [⟨o.nextId, some prev, some plan_id, s, "Trinity",
      o.nextId, .failedP t.task_id "failed" "temporary failure" 1⟩], o.nextId + 1⟩ :=
    fresh_snoc o _ hf rfl
  have e2 := new_message_eq _ "Trinity" s
    (.failedP t.task_id "failed" "temporary failure" 2) (some o.nextId)
    (some plan_id) hf1
  have hf2 : Fresh ⟨o.log ++
      [⟨o.nextId, some prev, some plan_id, s, "Trinity", o.nextId,
        .failedP t.task_id "failed" "temporary failure" 1⟩,
       ⟨o.nextId + 1, some o.nextId, some plan_id, s, "Trinity", o.nextId + 1,
        .failedP t.task_id "failed" "temporary failure" 2⟩], o.nextId + 1 + 1⟩ := by
    intro x hx
    show x.response_id < o.nextId + 2
    rcases List.mem_append.1 hx with h | h
    · exact lt_of_lt_of_le (hf x h) (by omega)
    · rcases List.mem_cons.1 h with rfl | h
      · show o.nextId < o.nextId + 2
        omega
      · rcases List.mem_cons.1 h with rfl | h
        · show o.nextId + 1 < o.nextId + 2
          omega
        · exact absurd h (List.not_mem_nil x)
  rw [attemptLoop.eq_def]
  simp [h1, e1]
  rw [attemptLoop.eq_def]
  simp [h2, e2]
  rw [new_message_eq _ "Trinity" (s ++ ".escalate")
    (.escalatedP t.task_id "escalated" "retries exhausted")
    (some (o.nextId + 1)) (some plan_id) hf2]
  simp [List.append_assoc, Nat.add_assoc]

/-- Retry loop, case "the action fails on attempt 1 and succeeds on
attempt 2": a `failed` Message then a `succeeded` Message (step label
with the `.retry` suffix) are recorded; the succeeded Message's
`prev_response_id` is the failed Message's id and both share the plan
Message's id as `parent_id`. -/
theorem attemptLoop_retry_success (fails : String → Nat → Bool) (s : String)
    (t : PTask) (plan_id prev : Nat) (o : Orch)
    (h1 : fails t.task_id 1 = true) (h2 : fails t.task_id 2 = false)
    (hf : Fresh o) :
    attemptLoop fails s t plan_id 1 prev o =
      .ok (⟨t.task_id, "succeeded", "completed " ++ t.description, 2⟩,
        o.nextId + 1,
        ⟨o.log ++
          [⟨o.nextId, some prev, some plan_id, s, "Trinity", o.nextId,
            .failedP t.task_id "failed" "temporary failure" 1⟩,
           ⟨o.nextId + 1, some o.nextId, some plan_id, s ++ ".retry", "Trinity",
            o.nextId + 1,
            .succeededP ⟨t.task_id, "succeeded", "completed " ++ t.description, 2⟩⟩],
         o.nextId + 2⟩) := by
  have e1 := new_message_eq o "Trinity" s
    (.failedP t.task_id "failed" "temporary failure" 1) (some prev) (some plan_id) hf
  have hf1 : Fresh ⟨o.log ++ [⟨o.nextId, some prev, some plan_id, s, "Trinity",
      o.nextId, .failedP t.task_id "failed" "temporary failure" 1⟩], o.nextId + 1⟩ :=
    fresh_snoc o _ hf rfl
  have e2 := new_message_eq _ "Trinity" (s ++ ".retry")
    (.succeededP ⟨t.task_id, "succeeded", "completed " ++ t.description, 2⟩)
    (some o.nextId) (some plan_id) hf1
  rw [attemptLoop.eq_def]
  simp [h1, e1]
  rw [attemptLoop.eq_def]
  simp [h2, e2, Nat.add_assoc]

/-- Retry loop, case "the action succeeds at once": a single
`succeeded` Message with the bare step label is recorded. -/
theorem attemptLoop_first_success (fails : String → Nat → Bool) (s : String)
    (t : PTask) (plan_id prev : Nat) (o : Orch)
    (h1 : fails t.task_id 1 = false) (hf : Fresh o) :
    attemptLoop fails s t plan_id 1 prev o =
      .ok (⟨t.task_id, "succeeded", "completed " ++ t.description, 1⟩,
        o.nextId,
        ⟨o.log ++ [⟨o.nextId, some prev, some plan_id, s, "Trinity", o.nextId,
          .succeededP ⟨t.task_id, "succeeded", "completed " ++ t.description, 1⟩⟩],
         o.nextId + 1⟩) := by
  have e1 := new_message_eq o "Trinity" s
    (.succeededP ⟨t.task_id, "succeeded", "completed " ++ t.description, 1⟩)
    (some prev) (some plan_id) hf
  rw [attemptLoop.eq_def]
  simp [h1, e1]

theorem fresh_afterPlan (req : String) : Fresh (afterPlan req) := by
  intro m hm
  fin_cases hm <;> simp [afterPlan]

/-- `run` from a fresh orchestrator is the intake and plan Messages
followed by `Trinity.execute` and the success/failure closeout. -/
theorem run_unfold (fails : String → Nat → Bool) (req : String) :
    orch0.run fails req =
      match execTasks fails 1 sourcePlan 1 1 [] (afterPlan req) with
      | .error (err, o3) =>
          (o3.new_message "Neo" "neo.closeout.1" (.closeoutErr err "failed")
            (some 1) (some 1)).2.log
      | .ok (results, last_id, o3) =>
          (o3.new_message "Neo" "neo.closeout.1" (.closeoutOk results "complete")
            (some last_id) (some last_id)).2.log := by
  simp [Orch.run, Orch.new_message, record, orch0, afterPlan]

/-- Run path "task-1 fails on both attempts": three Messages for
task-1 (failed, failed, escalated), no Message for task-2, and a
failure closeout. -/
theorem run_shape_ff (fails : String → Nat → Bool) (req : String)
    (h1 : fails "task-1" 1 = true) (h2 : fails "task-1" 2 = true) :
    orch0.run fails req =
      [⟨0, none, none, "neo.intake.1", "Neo", 0, .intakeP req⟩,
       ⟨1, some 0, some 0, "morpheus.plan.1", "Morpheus", 1, .planP sourcePlan req⟩,
       ⟨2, some 1, some 1, "trinity.exec.1", "Trinity", 2,
        .failedP "task-1" "failed" "temporary failure" 1⟩,
       ⟨3, some 2, some 1, "trinity.exec.1", "Trinity", 3,
        .failedP "task-1" "failed" "temporary failure" 2⟩,
       ⟨4, some 3, some 1, "trinity.exec.1.escalate", "Trinity", 4,
        .escalatedP "task-1" "escalated" "retries exhausted"⟩,
       ⟨5, some 1, some 1, "neo.closeout.1", "Neo", 5,
        .closeoutErr "Task task-1 escalation required" "failed"⟩] := by
  have hA := attemptLoop_two_failures fails "trinity.exec.1"
    ⟨"task-1", "Gather matrix intel"⟩ 1 1 (afterPlan req) h1 h2 (fresh_afterPlan req)
  rw [run_unfold]
  simp only [execTasks, sourcePlan]
  rw [show ("trinity.exec." ++ toString 1) = "trinity.exec.1" from rfl]
  rw [hA]
  simp [Orch.new_message, record, afterPlan, sourcePlan]

/-- Run path "task-1 succeeds at once, task-2 succeeds at once". -/
theorem run_shape_s_s (fails : String → Nat → Bool) (req : String)
    (h1 : fails "task-1" 1 = false) (h2 : fails "task-2" 1 = false) :
    orch0.run fails req =
      [⟨0, none, none, "neo.intake.1", "Neo", 0, .intakeP req⟩,
       ⟨1, some 0, some 0, "morpheus.plan.1", "Morpheus", 1, .planP sourcePlan req⟩,
       ⟨2, some 1, some 1, "trinity.exec.1", "Trinity", 2,
        .succeededP ⟨"task-1", "succeeded", "completed Gather matrix intel", 1⟩⟩,
       ⟨3, some 2, some 1, "trinity.exec.2", "Trinity", 3,
        .succeededP ⟨"task-2", "succeeded", "completed Secure extraction route", 1⟩⟩,
       ⟨4, some 3, some 3, "neo.closeout.1", "Neo", 4,
        .closeoutOk [⟨"task-1", "succeeded", "completed Gather matrix intel", 1⟩,
          ⟨"task-2", "succeeded", "completed Secure extraction route", 1⟩]
          "complete"⟩] := by
  have hA := attemptLoop_first_success fails "trinity.exec.1"
    ⟨"task-1", "Gather matrix intel"⟩ 1 1 (afterPlan req) h1 (fresh_afterPlan req)
  have hB := attemptLoop_first_success fails "trinity.exec.2"
    ⟨"task-2", "Secure extraction route"⟩ 1 2
    ⟨[⟨0, none, none, "neo.intake.1", "Neo", 0, .intakeP req⟩,
      ⟨1, some 0, some 0, "morpheus.plan.1", "Morpheus", 1, .planP sourcePlan req⟩,
      ⟨2, some 1, some 1, "trinity.exec.1", "Trinity", 2,
       .succeededP ⟨"task-1", "succeeded", "completed Gather matrix intel", 1⟩⟩], 3⟩
    h2 (by intro m hm; fin_cases hm <;> simp)
  rw [run_unfold]
  simp only [execTasks, sourcePlan]
  rw [show ("trinity.exec." ++ toString 1) = "trinity.exec.1" from rfl,
    show ("trinity.exec." ++ toString 2) = "trinity.exec.2" from rfl]
  simp only [sourcePlan] at hA hB
  rw [hA]
  simp [hB, Orch.new_message, record, afterPlan, sourcePlan]

/-- Run path "task-1 succeeds at once, task-2 fails once then succeeds
on retry". -/
theorem run_shape_s_fs (fails : String → Nat → Bool) (req : String)
    (h1 : fails "task-1" 1 = false)
    (h2 : fails "task-2" 1 = true) (h3 : fails "task-2" 2 = false) :
    orch0.run fails req =
      [⟨0, none, none, "neo.intake.1", "Neo", 0, .intakeP req⟩,
       ⟨1, some 0, some 0, "morpheus.plan.1", "Morpheus", 1, .planP sourcePlan req⟩,
       ⟨2, some 1, some 1, "trinity.exec.1", "Trinity", 2,
        .succeededP ⟨"task-1", "succeeded", "completed Gather matrix intel", 1⟩⟩,
       ⟨3, some 2, some 1, "trinity.exec.2", "Trinity", 3,
        .failedP "task-2" "failed" "temporary failure" 1⟩,
       ⟨4, some 3, some 1, "trinity.exec.2.retry", "Trinity", 4,
        .succeededP ⟨"task-2", "succeeded", "completed Secure extraction route", 2⟩⟩,
       ⟨5, some 4, some 4, "neo.closeout.1", "Neo", 5,
        .closeoutOk [⟨"task-1", "succeeded", "completed Gather matrix intel", 1⟩,
          ⟨"task-2", "succeeded", "completed Secure extraction route", 2⟩]
          "complete"⟩] := by
  have hA := attemptLoop_first_success fails "trinity.exec.1"
    ⟨"task-1", "Gather matrix intel"⟩ 1 1 (afterPlan req) h1 (fresh_afterPlan req)
  have hB := attemptLoop_retry_success fails "trinity.exec.2"
    ⟨"task-2", "Secure extraction route"⟩ 1 2
    ⟨[⟨0, none, none, "neo.intake.1", "Neo", 0, .intakeP req⟩,
      ⟨1, some 0, some 0, "morpheus.plan.1", "Morpheus", 1, .planP sourcePlan req⟩,
      ⟨2, some 1, some 1, "trinity.exec.1", "Trinity", 2,
       .succeededP ⟨"task-1", "succeeded", "completed Gather matrix intel", 1⟩⟩], 3⟩
    h2 h3 (by intro m hm; fin_cases hm <;> simp)
  rw [run_unfold]
  simp only [execTasks, sourcePlan]
  rw [show ("trinity.exec." ++ toString 1) = "trinity.exec.1" from rfl,
    show ("trinity.exec." ++ toString 2) = "trinity.exec.2" from rfl]
  simp only [sourcePlan] at hA hB
  rw [hA]
  simp [hB, Orch.new_message, record, afterPlan, sourcePlan]

/-- Run path "task-1 succeeds at once, task-2 fails on both attempts":
three Messages for task-2, the succeeded task-1 Message is retained,
and a failure closeout follows. -/
theorem run_shape_s_ff (fails : String → Nat → Bool) (req : String)
    (h1 : fails "task-1" 1 = false)
    (h2 : fails "task-2" 1 = true) (h3 : fails "task-2" 2 = true) :
    orch0.run fails req =
      [⟨0, none, none, "neo.intake.1", "Neo", 0, .intakeP req⟩,
       ⟨1, some 0, some 0, "morpheus.plan.1", "Morpheus", 1, .planP sourcePlan req⟩,
       ⟨2, some 1, some 1, "trinity.exec.1", "Trinity", 2,
        .succeededP ⟨"task-1", "succeeded", "completed Gather matrix intel", 1⟩⟩,
       ⟨3, some 2, some 1, "trinity.exec.2", "Trinity", 3,
        .failedP "task-2" "failed" "temporary failure" 1⟩,
       ⟨4, some 3, some 1, "trinity.exec.2", "Trinity", 4,
        .failedP "task-2" "failed" "temporary failure" 2⟩,
       ⟨5, some 4, some 1, "trinity.exec.2.escalate", "Trinity", 5,
        .escalatedP "task-2" "escalated" "retries exhausted"⟩,
       ⟨6, some 1, some 1, "neo.closeout.1", "Neo", 6,
        .closeoutErr "Task task-2 escalation required" "failed"⟩] := by
  have hA := attemptLoop_first_success fails "trinity.exec.1"
    ⟨"task-1", "Gather matrix intel"⟩ 1 1 (afterPlan req) h1 (fresh_afterPlan req)
  have hB := attemptLoop_two_failures fails "trinity.exec.2"
    ⟨"task-2", "Secure extraction route"⟩ 1 2
    ⟨[⟨0, none, none, "neo.intake.1", "Neo", 0, .intakeP req⟩,
      ⟨1, some 0, some 0, "morpheus.plan.1", "Morpheus", 1, .planP sourcePlan req⟩,
      ⟨2, some 1, some 1, "trinity.exec.1", "Trinity", 2,
       .succeededP ⟨"task-1", "succeeded", "completed Gather matrix intel", 1⟩⟩], 3⟩
    h2 h3 (by intro m hm; fin_cases hm <;> simp)
  rw [run_unfold]
  simp only [execTasks, sourcePlan]
  rw [show ("trinity.exec." ++ toString 1) = "trinity.exec.1" from rfl,
    show ("trinity.exec." ++ toString 2) = "trinity.exec.2" from rfl]
  simp only [sourcePlan] at hA hB
  rw [hA]
  simp [hB, Orch.new_message, record, afterPlan, sourcePlan]

/-- Run path "task-1 fails once then succeeds on retry, task-2
succeeds at once". -/
theorem run_shape_fs_s (fails : String → Nat → Bool) (req : String)
    (h1 : fails "task-1" 1 = true) (h2 : fails "task-1" 2 = false)
    (h3 : fails "task-2" 1 = false) :
    orch0.run fails req =
      [⟨0, none, none, "neo.intake.1", "Neo", 0, .intakeP req⟩,
       ⟨1, some 0, some 0, "morpheus.plan.1", "Morpheus", 1, .planP sourcePlan req⟩,
       ⟨2, some 1, some 1, "trinity.exec.1", "Trinity", 2,
        .failedP "task-1" "failed" "temporary failure" 1⟩,
       ⟨3, some 2, some 1, "trinity.exec.1.retry", "Trinity", 3,
        .succeededP ⟨"task-1", "succeeded", "completed Gather matrix intel", 2⟩⟩,
       ⟨4, some 3, some 1, "trinity.exec.2", "Trinity", 4,
        .succeededP ⟨"task-2", "succeeded", "completed Secure extraction route", 1⟩⟩,
       ⟨5, some 4, some 4, "neo.closeout.1", "Neo", 5,
        .closeoutOk [⟨"task-1", "succeeded", "completed Gather matrix intel", 2⟩,
          ⟨"task-2", "succeeded", "completed Secure extraction route", 1⟩]
          "complete"⟩] := by
  have hA := attemptLoop_retry_success fails "trinity.exec.1"
    ⟨"task-1", "Gather matrix intel"⟩ 1 1 (afterPlan req) h1 h2 (fresh_afterPlan req)
  have hB := attemptLoop_first_success fails "trinity.exec.2"
    ⟨"task-2", "Secure extraction route"⟩ 1 3
    ⟨[⟨0, none, none, "neo.intake.1", "Neo", 0, .intakeP req⟩,
      ⟨1, some 0, some 0, "morpheus.plan.1", "Morpheus", 1, .planP sourcePlan req⟩,
      ⟨2, some 1, some 1, "trinity.exec.1", "Trinity", 2,
       .failedP "task-1" "failed" "temporary failure" 1⟩,
      ⟨3, some 2, some 1, "trinity.exec.1.retry", "Trinity", 3,
       .succeededP ⟨"task-1", "succeeded", "completed Gather matrix intel", 2⟩⟩], 4⟩
    h3 (by intro m hm; fin_cases hm <;> simp)
  rw [run_unfold]
  simp only [execTasks, sourcePlan]
  rw [show ("trinity.exec." ++ toString 1) = "trinity.exec.1" from rfl,
    show ("trinity.exec." ++ toString 2) = "trinity.exec.2" from rfl]
  simp only [sourcePlan] at hA hB
  rw [hA]
  simp [hB, Orch.new_message, record, afterPlan, sourcePlan]

/-- Run path "both tasks fail once then succeed on retry". -/
theorem run_shape_fs_fs (fails : String → Nat → Bool) (req : String)
    (h1 : fails "task-1" 1 = true) (h2 : fails "task-1" 2 = false)
    (h3 : fails "task-2" 1 = true) (h4 : fails "task-2" 2 = false) :
    orch0.run fails req =
      [⟨0, none, none, "neo.intake.1", "Neo", 0, .intakeP req⟩,
       ⟨1, some 0, some 0, "morpheus.plan.1", "Morpheus", 1, .planP sourcePlan req⟩,
       ⟨2, some 1, some 1, "trinity.exec.1", "Trinity", 2,
        .failedP "task-1" "failed" "temporary failure" 1⟩,
       ⟨3, some 2, some 1, "trinity.exec.1.retry", "Trinity", 3,
        .succeededP ⟨"task-1", "succeeded", "completed Gather matrix intel", 2⟩⟩,
       ⟨4, some 3, some 1, "trinity.exec.2", "Trinity", 4,
        .failedP "task-2" "failed" "temporary failure" 1⟩,
       ⟨5, some 4, some 1, "trinity.exec.2.retry", "Trinity", 5,
        .succeededP ⟨"task-2", "succeeded", "completed Secure extraction route", 2⟩⟩,
       ⟨6, some 5, some 5, "neo.closeout.1", "Neo", 6,
        .closeoutOk [⟨"task-1", "succeeded", "completed Gather matrix intel", 2⟩,
          ⟨"task-2", "succeeded", "completed Secure extraction route", 2⟩]
          "complete"⟩] := by
  have hA := attemptLoop_retry_success fails "trinity.exec.1"
    ⟨"task-1", "Gather matrix intel"⟩ 1 1 (afterPlan req) h1 h2 (fresh_afterPlan req)
  have hB := attemptLoop_retry_success fails "trinity.exec.2"
    ⟨"task-2", "Secure extraction route"⟩ 1 3
    ⟨[⟨0, none, none, "neo.intake.1", "Neo", 0, .intakeP req⟩,
      ⟨1, some 0, some 0, "morpheus.plan.1", "Morpheus", 1, .planP sourcePlan req⟩,
      ⟨2, some 1, some 1, "trinity.exec.1", "Trinity", 2,
       .failedP "task-1" "failed" "temporary failure" 1⟩,
      ⟨3, some 2, some 1, "trinity.exec.1.retry", "Trinity", 3,
       .succeededP ⟨"task-1", "succeeded", "completed Gather matrix intel", 2⟩⟩], 4⟩
    h3 h4 (by intro m hm; fin_cases hm <;> simp)
  rw [run_unfold]
  simp only [execTasks, sourcePlan]
  rw [show ("trinity.exec." ++ toString 1) = "trinity.exec.1" from rfl,
    show ("trinity.exec." ++ toString 2) = "trinity.exec.2" from rfl]
  simp only [sourcePlan] at hA hB
  rw [hA]
  simp [hB, Orch.new_message, record, afterPlan, sourcePlan]

/-- Run path "task-1 fails once then succeeds on retry, task-2 fails
on both attempts". -/
theorem run_shape_fs_ff (fails : String → Nat → Bool) (req : String)
    (h1 : fails "task-1" 1 = true) (h2 : fails "task-1" 2 = false)
    (h3 : fails "task-2" 1 = true) (h4 : fails "task-2" 2 = true) :
    orch0.run fails req =
      [⟨0, none, none, "neo.intake.1", "Neo", 0, .intakeP req⟩,
       ⟨1, some 0, some 0, "morpheus.plan.1", "Morpheus", 1, .planP sourcePlan req⟩,
       ⟨2, some 1, some 1, "trinity.exec.1", "Trinity", 2,
        .failedP "task-1" "failed" "temporary failure" 1⟩,
       ⟨3, some 2, some 1, "trinity.exec.1.retry", "Trinity", 3,
        .succeededP ⟨"task-1", "succeeded", "completed Gather matrix intel", 2⟩⟩,
       ⟨4, some 3, some 1, "trinity.exec.2", "Trinity", 4,
        .failedP "task-2" "failed" "temporary failure" 1⟩,
       ⟨5, some 4, some 1, "trinity.exec.2", "Trinity", 5,
        .failedP "task-2" "failed" "temporary failure" 2⟩,
       ⟨6, some 5, some 1, "trinity.exec.2.escalate", "Trinity", 6,
        .escalatedP "task-2" "escalated" "retries exhausted"⟩,
       ⟨7, some 1, some 1, "neo.closeout.1", "Neo", 7,
        .closeoutErr "Task task-2 escalation required" "failed"⟩] := by
  have hA := attemptLoop_retry_success fails "trinity.exec.1"
    ⟨"task-1", "Gather matrix intel"⟩ 1 1 (afterPlan req) h1 h2 (fresh_afterPlan req)
  have hB := attemptLoop_two_failures fails "trinity.exec.2"
    ⟨"task-2", "Secure extraction route"⟩ 1 3
    ⟨[⟨0, none, none, "neo.intake.1", "Neo", 0, .intakeP req⟩,
      ⟨1, some 0, some 0, "morpheus.plan.1", "Morpheus", 1, .planP sourcePlan req⟩,
      ⟨2, some 1, some 1, "trinity.exec.1", "Trinity", 2,
       .failedP "task-1" "failed" "temporary failure" 1⟩,
      ⟨3, some 2, some 1, "trinity.exec.1.retry", "Trinity", 3,
       .succeededP ⟨"task-1", "succeeded", "completed Gather matrix intel", 2⟩⟩], 4⟩
    h3 h4 (by intro m hm; fin_cases hm <;> simp)
  rw [run_unfold]
  simp only [execTasks, sourcePlan]
  rw [show ("trinity.exec." ++ toString 1) = "trinity.exec.1" from rfl,
    show ("trinity.exec." ++ toString 2) = "trinity.exec.2" from rfl]
  simp only [sourcePlan] at hA hB
  rw [hA]
  simp [hB, Orch.new_message, record, afterPlan, sourcePlan]

/-- Claim C1: the orchestrator run with the built-in two-task planner,
`run("Retrieve the keymaker")`, terminates with a closeout Message
whose payload has status `"complete"`, and the log then holds exactly
six Messages in insertion order: intake, plan, task-1 succeeded,
task-2 failed (attempt 1), task-2 succeeded on retry (attempt 2),
closeout. -/
theorem run_keymaker_six_messages :
    run0 "Retrieve the keymaker" =
      [⟨0, none, none, "neo.intake.1", "Neo", 0, .intakeP "Retrieve the keymaker"⟩,
       ⟨1, some 0, some 0, "morpheus.plan.1", "Morpheus", 1,
        .planP sourcePlan "Retrieve the keymaker"⟩,
       ⟨2, some 1, some 1, "trinity.exec.1", "Trinity", 2,
        .succeededP ⟨"task-1", "succeeded", "completed Gather matrix intel", 1⟩⟩,
       ⟨3, some 2, some 1, "trinity.exec.2", "Trinity", 3,
        .failedP "task-2" "failed" "temporary failure" 1⟩,
       ⟨4, some 3, some 1, "trinity.exec.2.retry", "Trinity", 4,
        .succeededP ⟨"task-2", "succeeded", "completed Secure extraction route", 2⟩⟩,
       ⟨5, some 4, some 4, "neo.closeout.1", "Neo", 5,
        .closeoutOk [⟨"task-1", "succeeded", "completed Gather matrix intel", 1⟩,
          ⟨"task-2", "succeeded", "completed Secure extraction route", 2⟩]
          "complete"⟩] :=
  run_shape_s_fs sourceFails "Retrieve the keymaker" (by decide) (by decide) (by decide)

/-- Claim C2 (counterexample): `Orchestrator.record` performs no
integrity checks at all.  Recording a Message whose `response_id` (0)
is already present silently overwrites the stored Message instead of
failing with `DuplicateIdError` and leaving the log unchanged, and a
Message whose `prev_response_id`/`parent_id` reference ids absent from
the log (99 and 98) is accepted instead of failing with
`DanglingReferenceError`. -/
theorem record_no_integrity_checks_counterexample :
    record [⟨0, none, none, "neo.intake.1", "Neo", 0, .intakeP "a"⟩]
        ⟨0, none, none, "other.step", "Neo", 0, .intakeP "b"⟩ =
      [⟨0, none, none, "other.step", "Neo", 0, .intakeP "b"⟩] ∧
    (⟨0, none, none, "other.step", "Neo", 0, .intakeP "b"⟩ : Message) ≠
      ⟨0, none, none, "neo.intake.1", "Neo", 0, .intakeP "a"⟩ ∧
    record [] ⟨0, some 99, some 98, "s.step", "Neo", 0, .intakeP "c"⟩ =
      [⟨0, some 99, some 98, "s.step", "Neo", 0, .intakeP "c"⟩] := by
  refine ⟨by decide, by decide, by decide⟩

/-- Claim C2 (amended): `record` is total and never rejects a Message:
the recorded Message is always present afterwards (a duplicate id
silently replaces the stored Message — no error, no unchanged log),
Messages with other ids are preserved, and the log grows by at most
one entry (it does not grow at all on a duplicate id). -/
theorem record_total_overwrite (log : List Message) (m : Message) :
    m ∈ record log m ∧
    (∀ x ∈ log, x.response_id ≠ m.response_id → x ∈ record log m) ∧
    (record log m).length ≤ log.length + 1 := by
  unfold record
  by_cases h : log.any (fun x => x.response_id == m.response_id) = true
  · rw [if_pos h]
    refine ⟨?_, ?_, ?_⟩
    · rcases List.any_eq_true.1 h with ⟨x, hx, hbeq⟩
      refine List.mem_map.2 ⟨x, hx, ?_⟩
      rw [if_pos hbeq]
    · intro x hx hne
      refine List.mem_map.2 ⟨x, hx, ?_⟩
      rw [if_neg]
      simpa using hne
    · rw [List.length_map]
      omega
  · rw [if_neg h]
    refine ⟨List.mem_append_right _ (List.mem_singleton.2 rfl), ?_, ?_⟩
    · intro x hx _
      exact List.mem_append_left _ hx
    · rw [List.length_append]
      simp

/-- Claim C3: a task whose action fails on every attempt under the
source's `max_attempts = 2` leaves exactly three Messages for that
task — failed (attempt 1), failed (attempt 2), escalated with step
label `"<task-step>.escalate"` and payload `{task_id, status:
escalated, reason: "retries exhausted"}` — and the raised unrecoverable
error aborts the plan's remaining tasks (first run: task-1 escalates
and no task-2 Message exists) without rolling back already-succeeded
tasks (second run: task-2 escalates and the succeeded task-1 Message
is retained), while the run's closeout payload has status `"failed"`. -/
theorem exhausted_task_three_messages (f g : String → Nat → Bool)
    (req req2 : String)
    (hf1 : f "task-1" 1 = true) (hf2 : f "task-1" 2 = true)
    (hg1 : g "task-1" 1 = false) (hg2 : g "task-2" 1 = true)
    (hg3 : g "task-2" 2 = true) :
    orch0.run f req =
      [⟨0, none, none, "neo.intake.1", "Neo", 0, .intakeP req⟩,
       ⟨1, some 0, some 0, "morpheus.plan.1", "Morpheus", 1, .planP sourcePlan req⟩,
       ⟨2, some 1, some 1, "trinity.exec.1", "Trinity", 2,
        .failedP "task-1" "failed" "temporary failure" 1⟩,
       ⟨3, some 2, some 1, "trinity.exec.1", "Trinity", 3,
        .failedP "task-1" "failed" "temporary failure" 2⟩,
       ⟨4, some 3, some 1, "trinity.exec.1.escalate", "Trinity", 4,
        .escalatedP "task-1" "escalated" "retries exhausted"⟩,
       ⟨5, some 1, some 1, "neo.closeout.1", "Neo", 5,
        .closeoutErr "Task task-1 escalation required" "failed"⟩] ∧
    orch0.run g req2 =
      [⟨0, none, none, "neo.intake.1", "Neo", 0, .intakeP req2⟩,
       ⟨1, some 0, some 0, "morpheus.plan.1", "Morpheus", 1, .planP sourcePlan req2⟩,
       ⟨2, some 1, some 1, "trinity.exec.1", "Trinity", 2,
        .succeededP ⟨"task-1", "succeeded", "completed Gather matrix intel", 1⟩⟩,
       ⟨3, some 2, some 1, "trinity.exec.2", "Trinity", 3,
        .failedP "task-2" "failed" "temporary failure" 1⟩,
       ⟨4, some 3, some 1, "trinity.exec.2", "Trinity", 4,
        .failedP "task-2" "failed" "temporary failure" 2⟩,
       ⟨5, some 4, some 1, "trinity.exec.2.escalate", "Trinity", 5,
        .escalatedP "task-2" "escalated" "retries exhausted"⟩,
       ⟨6, some 1, some 1, "neo.closeout.1", "Neo", 6,
        .closeoutErr "Task task-2 escalation required" "failed"⟩] :=
  ⟨run_shape_ff f req hf1 hf2, run_shape_s_ff g req2 hg1 hg2 hg3⟩

/-- Witness for C3 at the concrete failure conditions "every attempt
fails" and "every task-2 attempt fails". -/
theorem exhausted_task_three_messages_witness :
    (fun (_ : String) (_ : Nat) => true) "task-1" 1 = true ∧
    (fun (_ : String) (_ : Nat) => true) "task-1" 2 = true ∧
    (fun (tid : String) (_ : Nat) => tid == "task-2") "task-1" 1 = false ∧
    (fun (tid : String) (_ : Nat) => tid == "task-2") "task-2" 1 = true ∧
    (fun (tid : String) (_ : Nat) => tid == "task-2") "task-2" 2 = true ∧
    (orch0.run (fun _ _ => true) "r1" =
      [⟨0, none, none, "neo.intake.1", "Neo", 0, .intakeP "r1"⟩,
       ⟨1, some 0, some 0, "morpheus.plan.1", "Morpheus", 1, .planP sourcePlan "r1"⟩,
       ⟨2, some 1, some 1, "trinity.exec.1", "Trinity", 2,
        .failedP "task-1" "failed" "temporary failure" 1⟩,
       ⟨3, some 2, some 1, "trinity.exec.1", "Trinity", 3,
        .failedP "task-1" "failed" "temporary failure" 2⟩,
       ⟨4, some 3, some 1, "trinity.exec.1.escalate", "Trinity", 4,
        .escalatedP "task-1" "escalated" "retries exhausted"⟩,
       ⟨5, some 1, some 1, "neo.closeout.1", "Neo", 5,
        .closeoutErr "Task task-1 escalation required" "failed"⟩] ∧
    orch0.run (fun tid _ => tid == "task-2") "r2" =
      [⟨0, none, none, "neo.intake.1", "Neo", 0, .intakeP "r2"⟩,
       ⟨1, some 0, some 0, "morpheus.plan.1", "Morpheus", 1, .planP sourcePlan "r2"⟩,
       ⟨2, some 1, some 1, "trinity.exec.1", "Trinity", 2,
        .succeededP ⟨"task-1", "succeeded", "completed Gather matrix intel", 1⟩⟩,
       ⟨3, some 2, some 1, "trinity.exec.2", "Trinity", 3,
        .failedP "task-2" "failed" "temporary failure" 1⟩,
       ⟨4, some 3, some 1, "trinity.exec.2", "Trinity", 4,
        .failedP "task-2" "failed" "temporary failure" 2⟩,
       ⟨5, some 4, some 1, "trinity.exec.2.escalate", "Trinity", 5,
        .escalatedP "task-2" "escalated" "retries exhausted"⟩,
       ⟨6, some 1, some 1, "neo.closeout.1", "Neo", 6,
        .closeoutErr "Task task-2 escalation required" "failed"⟩]) :=
  ⟨rfl, rfl, by decide, by decide, by decide,
   exhausted_task_three_messages (fun _ _ => true) (fun tid _ => tid == "task-2")
     "r1" "r2" rfl rfl (by decide) (by decide) (by decide)⟩

/-- Claim C4: a task whose action fails on its first attempt and
succeeds on its second leaves exactly two Messages for that task — the
failed one, then the succeeded one.  Both carry `parent_id = some
plan_id` (the plan Message's id as passed by `Trinity.execute`), and
the succeeded Message's `prev_response_id` is exactly the failed
Message's id (`o.nextId`), so the retry history is a contiguous causal
sub-chain. -/
theorem retried_task_two_messages (fails : String → Nat → Bool) (s : String)
    (t : PTask) (plan_id prev : Nat) (o : Orch)
    (h1 : fails t.task_id 1 = true) (h2 : fails t.task_id 2 = false)
    (hf : Fresh o) :
    attemptLoop fails s t plan_id 1 prev o =
      .ok (⟨t.task_id, "succeeded", "completed " ++ t.description, 2⟩,
        o.nextId + 1,
        ⟨o.log ++
          [⟨o.nextId, some prev, some plan_id, s, "Trinity", o.nextId,
            .failedP t.task_id "failed" "temporary failure" 1⟩,
           ⟨o.nextId + 1, some o.nextId, some plan_id, s ++ ".retry", "Trinity",
            o.nextId + 1,
            .succeededP ⟨t.task_id, "succeeded", "completed " ++ t.description, 2⟩⟩],
         o.nextId + 2⟩) :=
  attemptLoop_retry_success fails s t plan_id prev o h1 h2 hf

/-- Witness for C4 within a run context: the retried task-2 under the
source's own failure condition, after intake and plan. -/
theorem retried_task_two_messages_witness :
    sourceFails "task-2" 1 = true ∧
    sourceFails "task-2" 2 = false ∧
    attemptLoop sourceFails "trinity.exec.2"
        ⟨"task-2", "Secure extraction route"⟩ 1 1 1 (afterPlan "r") =
      .ok (⟨"task-2", "succeeded", "completed Secure extraction route", 2⟩, 3,
        ⟨[⟨0, none, none, "neo.intake.1", "Neo", 0, .intakeP "r"⟩,
          ⟨1, some 0, some 0, "morpheus.plan.1", "Morpheus", 1, .planP sourcePlan "r"⟩,
          ⟨2, some 1, some 1, "trinity.exec.2", "Trinity", 2,
           .failedP "task-2" "failed" "temporary failure" 1⟩,
          ⟨3, some 2, some 1, "trinity.exec.2.retry", "Trinity", 3,
           .succeededP ⟨"task-2", "succeeded", "completed Secure extraction route", 2⟩⟩],
         4⟩) :=
  ⟨by decide, by decide,
   retried_task_two_messages sourceFails "trinity.exec.2"
     ⟨"task-2", "Secure extraction route"⟩ 1 1 (afterPlan "r")
     (by decide) (by decide) (fresh_afterPlan "r")⟩

/-- Claim C9: a failed attempt is always recorded under the bare step
label `s` (`"trinity.exec.<n>"` as passed by `Trinity.execute`),
regardless of the attempt number: the two failed attempts of an
escalated task (run of `f`) carry the identical step label `s` and
differ only in the `attempt` payload field, while the `.retry` suffix
appears only on the Message recording a success at attempt 2 (run of
`g`). -/
theorem failed_attempts_bare_step_label (f g : String → Nat → Bool)
    (s : String) (t : PTask) (plan_id prev : Nat) (o : Orch)
    (hf1 : f t.task_id 1 = true) (hf2 : f t.task_id 2 = true)
    (hg1 : g t.task_id 1 = true) (hg2 : g t.task_id 2 = false)
    (ho : Fresh o) :
    attemptLoop f s t plan_id 1 prev o =
      .error ("Task " ++ t.task_id ++ " escalation required",
        ⟨o.log ++
          [⟨o.nextId, some prev, some plan_id, s, "Trinity", o.nextId,
            .failedP t.task_id "failed" "temporary failure" 1⟩,
           ⟨o.nextId + 1, some o.nextId, some plan_id, s, "Trinity", o.nextId + 1,
            .failedP t.task_id "failed" "temporary failure" 2⟩,
           ⟨o.nextId + 2, some (o.nextId + 1), some plan_id, s ++ ".escalate",
            "Trinity", o.nextId + 2,
            .escalatedP t.task_id "escalated" "retries exhausted"⟩],
         o.nextId + 3⟩) ∧
    attemptLoop g s t plan_id 1 prev o =
      .ok (⟨t.task_id, "succeeded", "completed " ++ t.description, 2⟩,
        o.nextId + 1,
        ⟨o.log ++
          [⟨o.nextId, some prev, some plan_id, s, "Trinity", o.nextId,
            .failedP t.task_id "failed" "temporary failure" 1⟩,
           ⟨o.nextId + 1, some o.nextId, some plan_id, s ++ ".retry", "Trinity",
            o.nextId + 1,
            .succeededP ⟨t.task_id, "succeeded", "completed " ++ t.description, 2⟩⟩],
         o.nextId + 2⟩) :=
  ⟨attemptLoop_two_failures f s t plan_id prev o hf1 hf2 ho,
   attemptLoop_retry_success g s t plan_id prev o hg1 hg2 ho⟩

/-- Witness for C9 at concrete failure conditions. -/
theorem failed_attempts_bare_step_label_witness :
    (fun (_ : String) (_ : Nat) => true) "tX" 1 = true ∧
    (fun (_ : String) (_ : Nat) => true) "tX" 2 = true ∧
    (fun (_ : String) (a : Nat) => a == 1) "tX" 1 = true ∧
    (fun (_ : String) (a : Nat) => a == 1) "tX" 2 = false ∧
    (attemptLoop (fun _ _ => true) "trinity.exec.1" ⟨"tX", "dX"⟩ 1 1 1 orch0 =
      .error ("Task tX escalation required",
        ⟨[⟨0, some 1, some 1, "trinity.exec.1", "Trinity", 0,
           .failedP "tX" "failed" "temporary failure" 1⟩,
          ⟨1, some 0, some 1, "trinity.exec.1", "Trinity", 1,
           .failedP "tX" "failed" "temporary failure" 2⟩,
          ⟨2, some 1, some 1, "trinity.exec.1.escalate", "Trinity", 2,
           .escalatedP "tX" "escalated" "retries exhausted"⟩], 3⟩) ∧
    attemptLoop (fun _ a => a == 1) "trinity.exec.1" ⟨"tX", "dX"⟩ 1 1 1 orch0 =
      .ok (⟨"tX", "succeeded", "completed dX", 2⟩, 1,
        ⟨[⟨0, some 1, some 1, "trinity.exec.1", "Trinity", 0,
           .failedP "tX" "failed" "temporary failure" 1⟩,
          ⟨1, some 0, some 1, "trinity.exec.1.retry", "Trinity", 1,
           .succeededP ⟨"tX", "succeeded", "completed dX", 2⟩⟩], 2⟩)) :=
  ⟨rfl, rfl, rfl, rfl,
   failed_attempts_bare_step_label (fun _ _ => true) (fun _ a => a == 1)
     "trinity.exec.1" ⟨"tX", "dX"⟩ 1 1 orch0 rfl rfl rfl rfl fresh_orch0⟩

/-- Claim C5 (counterexample): in a run where task-1 escalates, the
failure closeout Message (id 5) carries `prev_response_id = some 1`,
the plan Message's id — not the id of the last failed task Message
(id 3) nor of the escalation Message (id 4).  The claimed causal link
from the closeout to the last successful or failed task Message does
not hold on the code. -/
theorem closeout_escalation_counterexample :
    orch0.run (fun tid _ => tid == "task-1") "Retrieve the keymaker" =
      [⟨0, none, none, "neo.intake.1", "Neo", 0, .intakeP "Retrieve the keymaker"⟩,
       ⟨1, some 0, some 0, "morpheus.plan.1", "Morpheus", 1,
        .planP sourcePlan "Retrieve the keymaker"⟩,
       ⟨2, some 1, some 1, "trinity.exec.1", "Trinity", 2,
        .failedP "task-1" "failed" "temporary failure" 1⟩,
       ⟨3, some 2, some 1, "trinity.exec.1", "Trinity", 3,
        .failedP "task-1" "failed" "temporary failure" 2⟩,
       ⟨4, some 3, some 1, "trinity.exec.1.escalate", "Trinity", 4,
        .escalatedP "task-1" "escalated" "retries exhausted"⟩,
       ⟨5, some 1, some 1, "neo.closeout.1", "Neo", 5,
        .closeoutErr "Task task-1 escalation required" "failed"⟩] ∧
    (some 1 : Option Nat) ≠ some 3 ∧ (some 1 : Option Nat) ≠ some 4 :=
  ⟨run_shape_ff (fun tid _ => tid == "task-1") "Retrieve the keymaker"
     (by decide) (by decide), by decide, by decide⟩

/-- Claim C5 (amended): every run — any failure behaviour of the task
actions, any request — ends with exactly one closeout Message, and a
failure closeout (recorded when a task escalates, with payload
`{error, status: "failed"}`) has `prev_response_id` and `parent_id`
equal to the plan Message's id (1), not the id of the last task
Message recorded before the escalation. -/
theorem closeout_unique_and_plan_linked (fails : String → Nat → Bool)
    (req : String) :
    ((orch0.run fails req).filter
      (fun m => m.step_id == "neo.closeout.1")).length = 1 ∧
    (∀ m ∈ orch0.run fails req, m.payload.isErrCloseout = true →
      m.prev_response_id = some 1 ∧ m.parent_id = some 1) := by
  cases h1 : fails "task-1" 1
  case false =>
    cases h2 : fails "task-2" 1
    case false =>
      rw [run_shape_s_s fails req h1 h2]
      exact ⟨by simp, by simp [Payload.isErrCloseout]⟩
    case true =>
      cases h3 : fails "task-2" 2
      case false =>
        rw [run_shape_s_fs fails req h1 h2 h3]
        exact ⟨by simp, by simp [Payload.isErrCloseout]⟩
      case true =>
        rw [run_shape_s_ff fails req h1 h2 h3]
        exact ⟨by simp, by simp [Payload.isErrCloseout]⟩
  case true =>
    cases h2 : fails "task-1" 2
    case true =>
      rw [run_shape_ff fails req h1 h2]
      exact ⟨by simp, by simp [Payload.isErrCloseout]⟩
    case false =>
      cases h3 : fails "task-2" 1
      case false =>
        rw [run_shape_fs_s fails req h1 h2 h3]
        exact ⟨by simp, by simp [Payload.isErrCloseout]⟩
      case true =>
        cases h4 : fails "task-2" 2
        case false =>
          rw [run_shape_fs_fs fails req h1 h2 h3 h4]
          exact ⟨by simp, by simp [Payload.isErrCloseout]⟩
        case true =>
          rw [run_shape_fs_ff fails req h1 h2 h3 h4]
          exact ⟨by simp, by simp [Payload.isErrCloseout]⟩

end ConvMgr

namespace TQ

theorem foldl_push_eq {α : Type} (xs q : List α) :
    xs.foldl push q = xs.reverse ++ q := by
  induction xs generalizing q with
  | nil => simp
  | cons x xs ih => simp [push, ih]

theorem drainFuel_reverse {α : Type} :
    ∀ (n : Nat) (q : List α), q.length ≤ n → drainFuel n q = q.reverse := by
  intro n
  induction n with
  | zero =>
    intro q hq
    have : q = [] := List.length_eq_zero.1 (Nat.le_zero.1 hq)
    subst this
    simp [drainFuel]
  | succ n ih =>
    intro q hq
    rcases hrev : q.reverse with _ | ⟨x, l⟩
    · have : q = [] := by simpa using congrArg List.reverse hrev
      subst this
      simp [drainFuel, pop]
    · have hpop : pop q = some (x, l.reverse) := by
        simp [pop, hrev]
      have hlen : l.reverse.length ≤ n := by
        have := congrArg List.length hrev
        simp at this
        simp
        omega
      simp only [drainFuel, hpop]
      rw [ih l.reverse hlen]
      simp [hrev]

theorem drain_eq_reverse {α : Type} (q : List α) : drain q = q.reverse :=
  drainFuel_reverse q.length q le_rfl

/-- Claim C8: `push`/`pop` form a FIFO queue.  For every sequence of
pushes into an empty queue, draining by repeated `pop` serves the
entries in exactly the order they were pushed, and `pop` on the empty
queue returns `none` rather than an entry or an error. -/
theorem taskqueue_fifo (α : Type) (xs : List α) :
    drain (xs.foldl push ([] : List α)) = xs ∧
    pop ([] : List α) = none := by
  constructor
  · rw [foldl_push_eq, drain_eq_reverse]
    simp
  · rfl

end TQ

namespace SM

theorem get_append_self {α : Type} (st : Store α) (sid : String) (m : α) :
    get (append st sid m) sid = get st sid ++ [m] := by
  simp [get, set, append]

theorem get_append_ne {α : Type} (st : Store α) (k sid : String) (m : α)
    (h : k ≠ sid) : get (append st k m) sid = get st sid := by
  simp only [get, set, append]
  rw [if_neg]
  exact fun h2 => h h2.symm

/-- Appends under other keys never create a history for `sid`. -/
theorem get_foldl_ne {α : Type} (sid : String) :
    ∀ (ops : List (String × α)) (st : Store α),
      (∀ p ∈ ops, p.1 ≠ sid) → get st sid = [] →
      get (ops.foldl (fun st p => append st p.1 p.2) st) sid = [] := by
  intro ops
  induction ops with
  | nil =>
    intro st _ hst
    simpa using hst
  | cons p ops ih =>
    intro st h hst
    simp only [List.foldl_cons]
    refine ih _ (fun p2 hp2 => h p2 (List.mem_cons_of_mem p hp2)) ?_
    rw [get_append_ne st p.1 sid p.2 (h p (List.mem_cons_self p ops))]
    exact hst

/-- Claim C10: `get` returns the empty list for a session id that has
never been appended to — after any sequence of appends to other
session ids, starting from an empty store — rather than failing; and
`append` followed by `get` on the same id returns the previous history
with exactly the one appended entry at the end. -/
theorem session_get_total (α : Type) (sid : String)
    (ops : List (String × α)) (h : ∀ p ∈ ops, p.1 ≠ sid) :
    get (ops.foldl (fun st p => append st p.1 p.2) (empty : Store α)) sid = [] ∧
    (∀ (st : Store α) (m : α), get (append st sid m) sid = get st sid ++ [m]) := by
  constructor
  · exact get_foldl_ne sid ops empty h (by simp [get, empty])
  · intro st m
    exact get_append_self st sid m

/-- Witness for C10: two appends under other session ids leave
`"s1"` empty, and an append to `"s1"` shows up in `get`. -/
theorem session_get_total_witness :
    (∀ p ∈ [("other", 1), ("b", 2)], p.1 ≠ "s1") ∧
    (get ([("other", 1), ("b", 2)].foldl
        (fun st p => append st p.1 p.2) (empty : Store Nat)) "s1" = [] ∧
    (∀ (st : Store Nat) (m : Nat),
      get (append st "s1" m) "s1" = get st "s1" ++ [m])) :=
  ⟨by decide, session_get_total Nat "s1" [("other", 1), ("b", 2)] (by decide)⟩

end SM

namespace Mor

/-- Claim C6 (counterexample): a Delegate instruction is NOT honoured
regardless of which agent issued it.  When Tank — the popped entry's
agent, different from "Neo" — returns a Delegate instruction naming
Dozer, the loop pushes no entry for Dozer: the Delegate result itself
becomes the dispatch outcome returned to the caller, and the session
history shows Dozer was never invoked (only Neo's and Tank's results
were recorded). -/
theorem dispatch_nonneo_delegation_counterexample :
    (handle_message chainAgents 10 SM.empty "s1" "go").map
        (fun r => r.map Prod.fst) =
      some (.ok (some (.delegate "Dozer" "y"))) ∧
    (handle_message chainAgents 10 SM.empty "s1" "go").map
        (fun r => r.map (fun out => SM.get out.2 "s1")) =
      some (.ok [("Neo", ARes.delegate "Tank" "x"),
                 ("Tank", ARes.delegate "Dozer" "y")]) := by
  constructor <;> rfl

/-- Claim C6 (amended): the dispatch loop returns the last recorded
result once the queue is empty, and a Delegate result causes a push
for the target agent only when the popped entry's agent is `"Neo"`:
Neo's delegation pushes `⟨target, session, {"command": cmd}⟩` and
keeps the current result, while a Delegate result from any other agent
pushes nothing and simply becomes the current final result. -/
theorem dispatch_delegation_neo_only (agents : String → Option AgentFn)
    (fuel : Nat) (q rest : List Entry) (sess : SM.Store (String × ARes))
    (r : Option ARes) (e : Entry) (f : AgentFn) (tgt cmd : String)
    (hpop : TQ.pop q = some (e, rest))
    (hagent : agents e.agent = some f)
    (hres : f e.payload (SM.get sess e.session_id) = .ok (.delegate tgt cmd)) :
    dispatchLoop agents (fuel + 1) [] sess r = some (.ok (r, sess)) ∧
    (e.agent = "Neo" →
      dispatchLoop agents (fuel + 1) q sess r =
        dispatchLoop agents fuel
          (TQ.push rest ⟨tgt, e.session_id, ⟨none, some cmd⟩⟩)
          (SM.append sess e.session_id (e.agent, .delegate tgt cmd)) r) ∧
    (e.agent ≠ "Neo" →
      dispatchLoop agents (fuel + 1) q sess r =
        dispatchLoop agents fuel rest
          (SM.append sess e.session_id (e.agent, .delegate tgt cmd))
          (some (.delegate tgt cmd))) := by
  refine ⟨rfl, ?_, ?_⟩
  · intro hneo
    simp only [dispatchLoop, hpop, hagent, hres]
    rw [if_pos hneo]
  · intro hneo
    simp only [dispatchLoop, hpop, hagent, hres]
    rw [if_neg hneo]

/-- Witness for C6 (amended) at the Tank entry of `chainAgents`. -/
theorem dispatch_delegation_neo_only_witness :
    TQ.pop [(⟨"Tank", "s1", ⟨none, some "x"⟩⟩ : Entry)] =
      some (⟨"Tank", "s1", ⟨none, some "x"⟩⟩, []) ∧
    chainAgents "Tank" = some (fun _ _ => .ok (.delegate "Dozer" "y")) ∧
    (fun (_ : MPayload) (_ : List (String × ARes)) =>
        (.ok (.delegate "Dozer" "y") : Except PyErr ARes))
      (⟨none, some "x"⟩ : MPayload) (SM.get SM.empty "s1") =
      .ok (.delegate "Dozer" "y") ∧
    (dispatchLoop chainAgents 4 [] SM.empty none =
      some (.ok (none, SM.empty)) ∧
    (("Tank" : String) = "Neo" →
      dispatchLoop chainAgents 4 [⟨"Tank", "s1", ⟨none, some "x"⟩⟩] SM.empty none =
        dispatchLoop chainAgents 3
          (TQ.push [] ⟨"Dozer", "s1", ⟨none, some "y"⟩⟩)
          (SM.append SM.empty "s1" ("Tank", .delegate "Dozer" "y")) none) ∧
    (("Tank" : String) ≠ "Neo" →
      dispatchLoop chainAgents 4 [⟨"Tank", "s1", ⟨none, some "x"⟩⟩] SM.empty none =
        dispatchLoop chainAgents 3 []
          (SM.append SM.empty "s1" ("Tank", .delegate "Dozer" "y"))
          (some (.delegate "Dozer" "y")))) :=
  ⟨rfl, rfl, rfl,
   dispatch_delegation_neo_only chainAgents 3
     [⟨"Tank", "s1", ⟨none, some "x"⟩⟩] [] SM.empty none
     ⟨"Tank", "s1", ⟨none, some "x"⟩⟩
     (fun _ _ => .ok (.delegate "Dozer" "y")) "Dozer" "y" rfl rfl rfl⟩

/-- Claim C7 (the executor evaluated at the failing inputs): on the
empty command, on a missing command key, and on a whitespace-only
command, `TrinityAgent.handle` raises `IndexError`
(`"".split()[0]` indexes an empty list) instead of returning a Final
error result as the claim requires; a non-empty command outside the
allow-list is indeed rejected with the error result dict, without the
shell action ever being consulted (the result does not depend on
`shellOut`). -/
theorem executor_empty_command_raises (shellOut : String → String)
    (session : List (String × ARes)) :
    trinityHandle shellOut ⟨none, some ""⟩ session = .error .indexError ∧
    trinityHandle shellOut ⟨none, none⟩ session = .error .indexError ∧
    trinityHandle shellOut ⟨none, some "   "⟩ session = .error .indexError ∧
    trinityHandle shellOut ⟨none, some "pwd"⟩ session =
      .ok (.exec "error" "Command not allowed.") :=
  ⟨rfl, rfl, rfl, rfl⟩

end Mor

